import Mathlib

/-!
Verification development for the attendance-session logic of the
absensi-management repository (route handlers in the server routes file and
the duration utility in client/src/lib/attendance.ts).

Modelling conventions:
* Instants are UTC epoch minutes (`Int`); the handlers work at minute
  resolution (hour*60 + minute), so seconds are dropped.
* Asia/Jakarta is UTC+7 with no daylight-saving time, so the Jakarta local
  timeline is `now + 420` minutes.
* Calendar dates are day numbers (days since the epoch) instead of
  `YYYY-MM-DD` strings; subtracting one day in the handler's
  `setDate(getDate() - 1)` becomes subtracting 1 from the day number.
* A `List Session` stands for the result of
  `storage.getAttendanceSessionsByUserAndDate(userId, date)` in storage
  order; each handler receives it and returns either a business-rule error
  or the updated list.
-/

namespace Absensi

/-- One row of the `attendance` table (shared/schema.ts), restricted to the
fields the route handlers and the duration utility read or write.
Timestamps are UTC epoch minutes; `none` is SQL NULL. -/
structure Session where
  id : Nat
  userId : Nat
  date : Int
  checkIn : Option Int := none
  checkInPhoto : Option String := none
  checkInLocation : Option String := none
  breakStart : Option Int := none
  breakStartPhoto : Option String := none
  breakStartLocation : Option String := none
  breakEnd : Option Int := none
  breakEndPhoto : Option String := none
  breakEndLocation : Option String := none
  checkOut : Option Int := none
  checkOutPhoto : Option String := none
  checkOutLocation : Option String := none
  status : String := "present"
  shift : Option String := none
  sessionNumber : Nat := 1
  notes : Option String := none
  permitExitAt : Option Int := none
  permitResumeAt : Option Int := none
  deriving Repr, DecidableEq

/-- Business-rule failures surfaced by the handlers as HTTP 400 responses
(spec error kinds). -/
inductive AttnError where
  | SessionConflict
  | SessionLimitExceeded
  | NoActiveSession
  | NoAttendanceToday
  deriving Repr, DecidableEq

/-- Jakarta local timeline of a UTC instant, in minutes. -/
def jakartaLocal (now : Int) : Int := now + 420

/-- Jakarta calendar day number of an instant. -/
def jakartaCalendarDay (now : Int) : Int := jakartaLocal now / 1440

/-- Jakarta minutes since local midnight (the handlers'
`hour * 60 + minute`). -/
def jakartaMinutesOfDay (now : Int) : Int := jakartaLocal now % 1440

/-- Jakarta local hour (`jakartaTime.getHours()`). -/
def jakartaHour (now : Int) : Int := jakartaMinutesOfDay now / 60

/-- `getJakartaDate` from the routes file: the business day is the Jakarta
calendar day, moved back one day while the local hour is before 04:00. -/
def getJakartaDate (now : Int) : Int :=
  if jakartaHour now < 4 then jakartaCalendarDay now - 1 else jakartaCalendarDay now

/-- The active session of a day: the first stored session whose `checkOut`
is NULL (the handlers' `sessions.find(s => !s.checkOut)`). -/
def activeSession (sessions : List Session) : Option Session :=
  sessions.find? (fun s => s.checkOut.isNone)

/-- `storage.updateAttendance(id, patch)`: rewrite the row with the given
primary key, leaving every other row in place. -/
def updateAttendance (sessions : List Session) (i : Nat) (patch : Session → Session) :
    List Session :=
  sessions.map (fun s => if s.id = i then patch s else s)

/-- The lateness rule of the clock-in handler: late after 07:00 local on
"Shift 1", after 12:00 local on "Shift 2", otherwise present. -/
def clockInStatus (timeInMinutes : Int) (shift : String) : String :=
  if timeInMinutes > 420 ∧ shift = "Shift 1" then "late"
  else if timeInMinutes > 720 ∧ shift = "Shift 2" then "late"
  else "present"

/-- The clock-in handler: reject when an open session exists, then when the
day already holds 5 sessions; otherwise append a new session numbered
`count + 1`, stamped with the lateness status.  `shiftBody` is the request
body's shift field (`none` defaults to "Management"). -/
def clockIn (sessions : List Session) (userId newId : Nat) (now : Int)
    (shiftBody photo loc : Option String) : Except AttnError (List Session) :=
  let today := getJakartaDate now
  match activeSession sessions with
  | some _ => .error .SessionConflict
  | none =>
    let nextSessionNumber := sessions.length + 1
    if nextSessionNumber > 5 then .error .SessionLimitExceeded
    else
      let shift := shiftBody.getD "Management"
      let timeInMinutes := jakartaMinutesOfDay now
      let newSession : Session :=
        { id := newId, userId := userId, date := today, checkIn := some now,
          status := clockInStatus timeInMinutes shift, checkInPhoto := photo,
          checkInLocation := loc, shift := some shift,
          sessionNumber := nextSessionNumber }
      .ok (sessions ++ [newSession])

/-- The clock-out handler: close the active session (set `checkOut` and its
evidence fields), or fail when none is open. -/
def clockOut (sessions : List Session) (now : Int) (photo loc : Option String) :
    Except AttnError (List Session) :=
  match activeSession sessions with
  | none => .error .NoActiveSession
  | some existing =>
    .ok (updateAttendance sessions existing.id (fun s =>
      { s with checkOut := some now, checkOutPhoto := photo,
               checkOutLocation := loc }))

/-- The break-start handler: stamp `breakStart` on the active session, or
fail when none is open.  No check on any earlier break state. -/
def breakStart (sessions : List Session) (now : Int) (photo loc : Option String) :
    Except AttnError (List Session) :=
  match activeSession sessions with
  | none => .error .NoActiveSession
  | some existing =>
    .ok (updateAttendance sessions existing.id (fun s =>
      { s with breakStart := some now, breakStartPhoto := photo,
               breakStartLocation := loc }))

/-- The break-end handler: stamp `breakEnd` on the active session, or fail
when none is open.  No check that a break was ever started. -/
def breakEnd (sessions : List Session) (now : Int) (photo loc : Option String) :
    Except AttnError (List Session) :=
  match activeSession sessions with
  | none => .error .NoActiveSession
  | some existing =>
    .ok (updateAttendance sessions existing.id (fun s =>
      { s with breakEnd := some now, breakEndPhoto := photo,
               breakEndLocation := loc }))

/-- Modelled from the spec: `storage.getAttendanceByUserAndDate` is absent
from the sources (the storage layer is a black-box persistence interface,
spec section 6); it is plain CRUD with no business filtering, so it returns
the first stored attendance record for the user and business date, or none. -/
def getAttendanceByUserAndDate (sessions : List Session) : Option Session :=
  sessions.head?

/-- The permit handler.  When any record exists for the day it is updated in
place: status becomes the permit type and `checkOut`/`permitExitAt` are
stamped with now.  Otherwise a fresh record is created with the permit
status and `checkIn = now` (and the schema default `sessionNumber = 1`). -/
def permit (sessions : List Session) (userId newId : Nat) (now : Int)
    (ptype : String) (notes photo : Option String) : List Session :=
  let today := getJakartaDate now
  match getAttendanceByUserAndDate sessions with
  | some existing =>
    updateAttendance sessions existing.id (fun s =>
      { s with status := ptype, notes := notes, checkOut := some now,
               checkOutPhoto := photo, permitExitAt := some now })
  | none =>
    let newSession : Session :=
      { id := newId, userId := userId, date := today, status := ptype,
        notes := notes, checkInPhoto := photo, checkIn := some now }
    sessions ++ [newSession]

/-- The resume handler: needs at least one session today and no open one;
then appends a session numbered `count + 1` with the shift-independent
07:00 lateness rule and notes "Sesi ke-N".  There is no 5-session cap
here. -/
def resume (sessions : List Session) (userId newId : Nat) (now : Int) :
    Except AttnError (List Session) :=
  let today := getJakartaDate now
  if sessions.length = 0 then .error .NoAttendanceToday
  else
    match activeSession sessions with
    | some _ => .error .SessionConflict
    | none =>
      let nextSessionNumber := sessions.length + 1
      let timeInMinutes := jakartaMinutesOfDay now
      let status := if timeInMinutes > 420 then "late" else "present"
      let newSession : Session :=
        { id := newId, userId := userId, date := today, checkIn := some now,
          status := status, shift := some "Management",
          sessionNumber := nextSessionNumber,
          notes := some ("Sesi ke-" ++ toString nextSessionNumber) }
      .ok (sessions ++ [newSession])

/-- The 04:00 Jakarta instant of the current Jakarta calendar day, as UTC
minutes (the handler's `new Date(jakartaTime.setHours(4, 0, 0, 0))`). -/
def jakartaFourAM (now : Int) : Int :=
  jakartaCalendarDay now * 1440 + 240 - 420

/-- JavaScript truthiness of the notes column (`null`, `undefined` and `""`
are falsy). -/
def notesTruthy (notes : Option String) : Bool :=
  match notes with
  | some t => t ≠ ""
  | none => false

/-- The notes value written by the auto-close sweep:
`notes ? `${notes} (Auto-closed at 04:00)` : "Auto-closed at 04:00"`. -/
def autoCloseNotes (notes : Option String) : String :=
  if notesTruthy notes then notes.getD "" ++ " (Auto-closed at 04:00)"
  else "Auto-closed at 04:00"

/-- The auto-close sweep of the today handler: when today holds no session,
the previous day's first open session exists and the Jakarta hour is at
least 4, force-close it at today's 04:00 and annotate its notes.  Returns
the (possibly updated) previous-day list; the handler's response is always
the unchanged today list. -/
def autoCloseSweep (todaySessions yesterdaySessions : List Session) (now : Int) :
    List Session :=
  if todaySessions.length = 0 then
    match activeSession yesterdaySessions with
    | some openSession =>
      if jakartaHour now ≥ 4 then
        updateAttendance yesterdaySessions openSession.id (fun s =>
          { s with checkOut := some (jakartaFourAM now),
                   notes := some (autoCloseNotes openSession.notes) })
      else yesterdaySessions
    | none => yesterdaySessions
  else yesterdaySessions

/-! ## Duration aggregation (client/src/lib/attendance.ts) -/

/-- `calculateDuration`: minutes from start to end, 0 when either side is
absent. -/
def calculateDuration (start stop : Option Int) : Int :=
  match start, stop with
  | some s, some t => t - s
  | _, _ => 0

/-- Result record of `calculateDailyTotal`. -/
structure DailyTotal where
  totalWorkMins : Int
  totalBreakMins : Int
  netWorkMins : Int
  deriving Repr, DecidableEq

/-- Work minutes contributed by one record: check-in to check-out, and when
both permit timestamps are present the permit interval is subtracted with a
floor at 0. -/
def sessionWorkMins (r : Session) : Int :=
  let sessionWork := calculateDuration r.checkIn r.checkOut
  match r.permitExitAt, r.permitResumeAt with
  | some _, some _ =>
    max 0 (sessionWork - calculateDuration r.permitExitAt r.permitResumeAt)
  | _, _ => sessionWork

/-- Break minutes contributed by one record. -/
def sessionBreakMins (r : Session) : Int :=
  calculateDuration r.breakStart r.breakEnd

/-- `calculateDailyTotal`: per-record work and break minutes summed over the
set, with net work floored at 0. -/
def calculateDailyTotal (records : List Session) : DailyTotal :=
  let totalWorkMins := (records.map sessionWorkMins).sum
  let totalBreakMins := (records.map sessionBreakMins).sum
  { totalWorkMins := totalWorkMins, totalBreakMins := totalBreakMins,
    netWorkMins := max 0 (totalWorkMins - totalBreakMins) }

/-! ## Concrete fixtures -/

/-- Fixture: an open session (checkOut NULL) with a break in progress. -/
def sampleOpen : Session :=
  { id := 9, userId := 7, date := 0, checkIn := some 0, breakStart := some 30 }

/-- Fixture: a closed session with primary key and session number `i`. -/
def sampleClosed (i : Nat) : Session :=
  { id := i, userId := 7, date := 0, checkIn := some 0, checkOut := some 60,
    sessionNumber := i }

/-- Fixture: yesterday's forgotten open session, notes NULL. -/
def openYesterday : Session :=
  { id := 3, userId := 7, date := -1, checkIn := some (-300) }

/-- Fixture: five closed sessions, the daily cap. -/
def fiveClosed : List Session :=
  [sampleClosed 1, sampleClosed 2, sampleClosed 3, sampleClosed 4, sampleClosed 5]

/-- Fixture: the session created by a 06:00 "Shift 1" clock-in (UTC minute
-60 of day 0) on an empty day. -/
def session0600 : Session :=
  { id := 1, userId := 7, date := 0, checkIn := some (-60), status := "present",
    shift := some "Shift 1", sessionNumber := 1 }

/-- Fixture: the sixth session created by resume at Jakarta 17:00 (UTC
minute 600) on a day already holding five closed sessions. -/
def resumeSixth : Session :=
  { id := 6, userId := 7, date := 0, checkIn := some 600, status := "late",
    shift := some "Management", sessionNumber := 6, notes := some "Sesi ke-6" }

/-- Fixture: the second session created by resume at Jakarta 17:00 on a day
holding one closed session. -/
def resumeSecond : Session :=
  { id := 2, userId := 7, date := 0, checkIn := some 600, status := "late",
    shift := some "Management", sessionNumber := 2, notes := some "Sesi ke-2" }

/-- Fixture: the aggregation scenario session, 09:00 to 17:00 with a 12:00
to 13:00 break (minutes of day 0). -/
def scenarioSession : Session :=
  { id := 1, userId := 7, date := 0, checkIn := some 540, checkOut := some 1020,
    breakStart := some 720, breakEnd := some 780 }

/-! ## Helper lemmas -/

theorem activeSession_eq_none {sessions : List Session}
    (h : ∀ s ∈ sessions, s.checkOut ≠ none) : activeSession sessions = none := by
  rw [activeSession, List.find?_eq_none]
  intro s hs
  simp [Option.isNone_iff_eq_none, h s hs]

theorem activeSession_mem {sessions : List Session} {ex : Session}
    (h : activeSession sessions = some ex) : ex ∈ sessions ∧ ex.checkOut = none := by
  refine ⟨List.mem_of_find?_eq_some h, ?_⟩
  have hp := List.find?_some h
  simpa [Option.isNone_iff_eq_none] using hp

theorem activeSession_isSome {sessions : List Session} {s : Session}
    (hs : s ∈ sessions) (hco : s.checkOut = none) :
    (activeSession sessions).isSome := by
  rw [activeSession, List.find?_isSome]
  exact ⟨s, hs, by simp [hco]⟩

theorem mem_updateAttendance_of_ne {sessions : List Session} {i : Nat}
    {patch : Session → Session} {s : Session} (hs : s ∈ sessions)
    (hne : s.id ≠ i) : s ∈ updateAttendance sessions i patch := by
  rw [updateAttendance]
  exact List.mem_map.mpr ⟨s, hs, by simp [hne]⟩

theorem patch_mem_updateAttendance {sessions : List Session}
    {patch : Session → Session} {s : Session} (hs : s ∈ sessions) :
    patch s ∈ updateAttendance sessions s.id patch := by
  rw [updateAttendance]
  exact List.mem_map.mpr ⟨s, hs, by simp⟩

theorem id_injective_of_nodup {sessions : List Session}
    (hids : (sessions.map Session.id).Nodup) {a b : Session}
    (ha : a ∈ sessions) (hb : b ∈ sessions) (h : a.id = b.id) : a = b :=
  List.inj_on_of_nodup_map hids ha hb h

/-! ## Claim theorems -/

/-- C4: `getJakartaDate` resolves an instant to its Jakarta calendar day,
minus one exactly when the Jakarta local hour is strictly below 4; 03:59
and 04:01 Jakarta local on the same calendar day resolve to business dates
one day apart; the function is total. -/
theorem getJakartaDate_spec (now : Int) :
    (jakartaHour now < 4 → getJakartaDate now = jakartaCalendarDay now - 1) ∧
    (4 ≤ jakartaHour now → getJakartaDate now = jakartaCalendarDay now) ∧
    ∀ day : Int,
      getJakartaDate (day * 1440 + 239 - 420) = day - 1 ∧
      getJakartaDate (day * 1440 + 241 - 420) = day := by
  refine ⟨fun h => by rw [getJakartaDate, if_pos h],
    fun h => by rw [getJakartaDate, if_neg (by omega)], fun day => ?_⟩
  constructor <;>
  · simp only [getJakartaDate, jakartaHour, jakartaMinutesOfDay,
      jakartaCalendarDay, jakartaLocal]
    split <;> omega

/-- Witness for C4 at instant 0 (Jakarta 07:00 of day 0). -/
theorem getJakartaDate_spec_witness :
    4 ≤ jakartaHour 0 ∧ getJakartaDate 0 = jakartaCalendarDay 0 :=
  ⟨by decide, (getJakartaDate_spec 0).2.1 (by decide)⟩

theorem clockInStatus_eq_late_iff (t : Int) (shift : String) :
    clockInStatus t shift = "late" ↔
      (t > 420 ∧ shift = "Shift 1") ∨ (t > 720 ∧ shift = "Shift 2") := by
  unfold clockInStatus
  split_ifs with h1 h2
  · simp [h1]
  · simp [h2]
  · constructor
    · intro hc
      exact absurd hc (by decide)
    · intro hc
      rcases hc with hc | hc
      · exact absurd hc h1
      · exact absurd hc h2

theorem clockInStatus_eq_present (t : Int) (shift : String)
    (h1 : shift ≠ "Shift 1") (h2 : shift ≠ "Shift 2") :
    clockInStatus t shift = "present" := by
  unfold clockInStatus
  split_ifs with ha hb
  · exact absurd ha.2 h1
  · exact absurd hb.2 h2
  · rfl

/-- C5: a successful clock-in appends exactly one session, whose status is
"late" precisely when the Jakarta minutes-of-day exceed 420 on shift
"Shift 1" or exceed 720 on shift "Shift 2"; any other shift yields
"present" regardless of the time. -/
theorem clockIn_lateness_rule (sessions : List Session) (userId newId : Nat)
    (now : Int) (shiftBody photo loc : Option String) (out : List Session)
    (hok : clockIn sessions userId newId now shiftBody photo loc = .ok out) :
    ∃ s, out = sessions ++ [s] ∧
      (s.status = "late" ↔
        (jakartaMinutesOfDay now > 420 ∧ shiftBody.getD "Management" = "Shift 1") ∨
        (jakartaMinutesOfDay now > 720 ∧ shiftBody.getD "Management" = "Shift 2")) ∧
      (shiftBody.getD "Management" ≠ "Shift 1" →
        shiftBody.getD "Management" ≠ "Shift 2" → s.status = "present") := by
  simp only [clockIn] at hok
  split at hok
  · exact absurd hok (by simp)
  · split at hok
    · exact absurd hok (by simp)
    · rw [Except.ok.injEq] at hok
      subst hok
      refine ⟨_, rfl, ?_, ?_⟩
      · exact clockInStatus_eq_late_iff _ _
      · intro h1 h2
        exact clockInStatus_eq_present _ _ h1 h2

/-- Witness for C5: the concrete 06:00 "Shift 1" clock-in of the spec
scenario, which yields status "present". -/
theorem clockIn_lateness_rule_witness :
    ∃ s, [session0600] = ([] : List Session) ++ [s] ∧
      (s.status = "late" ↔
        (jakartaMinutesOfDay (-60) > 420 ∧
          (some "Shift 1").getD "Management" = "Shift 1") ∨
        (jakartaMinutesOfDay (-60) > 720 ∧
          (some "Shift 1").getD "Management" = "Shift 2")) ∧
      ((some "Shift 1").getD "Management" ≠ "Shift 1" →
        (some "Shift 1").getD "Management" ≠ "Shift 2" → s.status = "present") :=
  clockIn_lateness_rule [] 7 1 (-60) (some "Shift 1") none none [session0600] (by rfl)

/-- C6: clock-in fails with SessionConflict whenever some session of the day
has checkOut NULL — whatever its break state — and produces no updated
list. -/
theorem clockIn_conflict_of_open (sessions : List Session) (userId newId : Nat)
    (now : Int) (shiftBody photo loc : Option String)
    (hopen : ∃ s ∈ sessions, s.checkOut = none) :
    clockIn sessions userId newId now shiftBody photo loc =
      .error .SessionConflict := by
  obtain ⟨s, hs, hco⟩ := hopen
  have hsome := activeSession_isSome hs hco
  simp only [clockIn]
  split
  · rfl
  · next heq => rw [heq] at hsome; simp at hsome

/-- Witness for C6: clock-in against a day holding an open session that is
mid-break. -/
theorem clockIn_conflict_of_open_witness :
    clockIn [sampleOpen] 7 2 600 none none none = .error .SessionConflict :=
  clockIn_conflict_of_open [sampleOpen] 7 2 600 none none none
    ⟨sampleOpen, by simp, rfl⟩

/-- C1 counterexample: a resume attempted when five (closed) sessions
already exist for the day does not fail with SessionLimitExceeded — it
succeeds and creates a sixth session. -/
theorem resume_sixth_session_counterexample :
    resume fiveClosed 7 6 600 ≠ .error .SessionLimitExceeded ∧
    resume fiveClosed 7 6 600 = .ok (fiveClosed ++ [resumeSixth]) ∧
    (fiveClosed ++ [resumeSixth]).length = 6 := by
  refine ⟨?_, rfl, rfl⟩
  intro h
  rw [(rfl : resume fiveClosed 7 6 600 = .ok (fiveClosed ++ [resumeSixth]))] at h
  exact Except.noConfusion h

/-- C1 amended: every session-creating operation assigns
sessionNumber = count + 1, but only clock-in enforces the 5-session cap
(failing with SessionLimitExceeded when five sessions exist and none is
open); resume performs no cap check and succeeds past five sessions; permit
creates a session only when no record exists for the day, with the schema
default sessionNumber 1. -/
theorem sessionNumber_assignment_and_cap (sessions : List Session)
    (userId newId : Nat) (now : Int)
    (shiftBody photo loc notesBody : Option String) (ptype : String) :
    ((∀ s ∈ sessions, s.checkOut ≠ none) → 5 ≤ sessions.length →
      clockIn sessions userId newId now shiftBody photo loc =
        .error .SessionLimitExceeded) ∧
    (∀ out, clockIn sessions userId newId now shiftBody photo loc = .ok out →
      ∃ s, out = sessions ++ [s] ∧ s.sessionNumber = sessions.length + 1 ∧
        sessions.length + 1 ≤ 5) ∧
    (∀ out, resume sessions userId newId now = .ok out →
      ∃ s, out = sessions ++ [s] ∧ s.sessionNumber = sessions.length + 1) ∧
    (sessions.length = 5 → (∀ s ∈ sessions, s.checkOut ≠ none) →
      ∃ out, resume sessions userId newId now = .ok out ∧ out.length = 6) ∧
    (sessions = [] →
      ∃ s, permit sessions userId newId now ptype notesBody photo = [s] ∧
        s.sessionNumber = 1) ∧
    (sessions ≠ [] →
      (permit sessions userId newId now ptype notesBody photo).length =
        sessions.length) := by
  refine ⟨fun hclosed hlen => ?_, fun out hok => ?_, fun out hok => ?_,
    fun hlen hclosed => ?_, fun hnil => ?_, fun hnonnil => ?_⟩
  · simp only [clockIn, activeSession_eq_none hclosed]
    rw [if_pos (by omega)]
  · simp only [clockIn] at hok
    split at hok
    · exact absurd hok (by simp)
    · split at hok
      · exact absurd hok (by simp)
      · rw [Except.ok.injEq] at hok
        subst hok
        next hgt => exact ⟨_, rfl, rfl, by omega⟩
  · simp only [resume] at hok
    split at hok
    · exact absurd hok (by simp)
    · split at hok
      · exact absurd hok (by simp)
      · rw [Except.ok.injEq] at hok
        subst hok
        exact ⟨_, rfl, rfl⟩
  · have hres : resume sessions userId newId now = .ok (sessions ++
        [{ id := newId, userId := userId, date := getJakartaDate now,
           checkIn := some now,
           status := if jakartaMinutesOfDay now > 420 then "late" else "present",
           shift := some "Management", sessionNumber := sessions.length + 1,
           notes := some ("Sesi ke-" ++ toString (sessions.length + 1)) }]) := by
      simp only [resume, activeSession_eq_none hclosed]
      rw [if_neg (by omega)]
    exact ⟨_, hres, by simp [hlen]⟩
  · subst hnil
    exact ⟨_, rfl, rfl⟩
  · simp only [permit]
    match sessions, hnonnil with
    | ex :: rest, _ =>
      simp [getAttendanceByUserAndDate, updateAttendance]

/-- Witness for C1 amended: six concrete cases folded into one — clock-in
on five closed sessions is refused with the limit error. -/
theorem sessionNumber_assignment_and_cap_witness :
    clockIn fiveClosed 7 6 600 none none none = .error .SessionLimitExceeded :=
  (sessionNumber_assignment_and_cap fiveClosed 7 6 600 none none none none
    "sick").1 (by decide) (by decide)

/-- C2 counterexample: permit on a day whose first record is already closed
(checkOut = 60) rewrites that record's checkOut to now (600) — a set
checkOut is changed by a normal-flow operation. -/
theorem permit_overwrites_checkout_counterexample :
    (sampleClosed 1).checkOut = some 60 ∧
    permit [sampleClosed 1] 7 2 600 "sick" none none =
      [{ sampleClosed 1 with status := "sick", notes := none,
                             checkOut := some 600, checkOutPhoto := none,
                             permitExitAt := some 600 }] ∧
    (600 : Int) ≠ 60 := ⟨rfl, rfl, by decide⟩

/-- C2 amended: a session whose checkOut is set survives clock-in,
clock-out, break-start, break-end, resume and the auto-close sweep
unchanged (given distinct primary keys), and the sweep sets checkOut only
on the NULL-checkOut session it finds; but permit, whenever any record
exists for the day — open or closed — stamps the first record's checkOut
with now. -/
theorem checkOut_immutability (sessions todaySessions : List Session)
    (userId newId : Nat) (now : Int)
    (shiftBody photo loc notesBody : Option String) (ptype : String)
    (hids : (sessions.map Session.id).Nodup) :
    (∀ s ∈ sessions, s.checkOut ≠ none →
      (∀ out, clockIn sessions userId newId now shiftBody photo loc = .ok out →
        s ∈ out) ∧
      (∀ out, clockOut sessions now photo loc = .ok out → s ∈ out) ∧
      (∀ out, breakStart sessions now photo loc = .ok out → s ∈ out) ∧
      (∀ out, breakEnd sessions now photo loc = .ok out → s ∈ out) ∧
      (∀ out, resume sessions userId newId now = .ok out → s ∈ out) ∧
      s ∈ autoCloseSweep todaySessions sessions now) ∧
    (∀ ex rest, sessions = ex :: rest →
      ∃ s', s' ∈ permit sessions userId newId now ptype notesBody photo ∧
        s'.id = ex.id ∧ s'.checkOut = some now) := by
  constructor
  · intro s hs hco
    have hne : ∀ ex : Session, ex ∈ sessions → ex.checkOut = none →
        s.id ≠ ex.id := by
      intro ex hex hexco hid
      exact hco ((id_injective_of_nodup hids hs hex hid) ▸ hexco)
    refine ⟨fun out hok => ?_, fun out hok => ?_, fun out hok => ?_,
      fun out hok => ?_, fun out hok => ?_, ?_⟩
    · simp only [clockIn] at hok
      split at hok
      · exact absurd hok (by simp)
      · split at hok
        · exact absurd hok (by simp)
        · rw [Except.ok.injEq] at hok
          subst hok
          exact List.mem_append_left _ hs
    · simp only [clockOut] at hok
      split at hok
      · exact absurd hok (by simp)
      · next ex hex =>
        rw [Except.ok.injEq] at hok
        subst hok
        obtain ⟨hexmem, hexco⟩ := activeSession_mem hex
        exact mem_updateAttendance_of_ne hs (hne ex hexmem hexco)
    · simp only [breakStart] at hok
      split at hok
      · exact absurd hok (by simp)
      · next ex hex =>
        rw [Except.ok.injEq] at hok
        subst hok
        obtain ⟨hexmem, hexco⟩ := activeSession_mem hex
        exact mem_updateAttendance_of_ne hs (hne ex hexmem hexco)
    · simp only [breakEnd] at hok
      split at hok
      · exact absurd hok (by simp)
      · next ex hex =>
        rw [Except.ok.injEq] at hok
        subst hok
        obtain ⟨hexmem, hexco⟩ := activeSession_mem hex
        exact mem_updateAttendance_of_ne hs (hne ex hexmem hexco)
    · simp only [resume] at hok
      split at hok
      · exact absurd hok (by simp)
      · split at hok
        · exact absurd hok (by simp)
        · rw [Except.ok.injEq] at hok
          subst hok
          exact List.mem_append_left _ hs
    · simp only [autoCloseSweep]
      split
      · split
        · next ex hex =>
          obtain ⟨hexmem, hexco⟩ := activeSession_mem hex
          split
          · exact mem_updateAttendance_of_ne hs (hne ex hexmem hexco)
          · exact hs
        · exact hs
      · exact hs
  · intro ex rest hcons
    subst hcons
    have hmem : { ex with status := ptype, notes := notesBody,
                          checkOut := some now, checkOutPhoto := photo,
                          permitExitAt := some now } ∈
        permit (ex :: rest) userId newId now ptype notesBody photo := by
      simp only [permit, getAttendanceByUserAndDate, List.head?]
      exact @patch_mem_updateAttendance (ex :: rest) _ ex (List.mem_cons_self ex rest)
    exact ⟨_, hmem, rfl, rfl⟩

/-- Witness for C2 amended: the closed session of a one-record day survives
the auto-close sweep untouched. -/
theorem checkOut_immutability_witness :
    sampleClosed 1 ∈ autoCloseSweep [] [sampleClosed 1] 600 :=
  ((checkOut_immutability [sampleClosed 1] [] 7 2 600 none none none none
    "sick" (by decide)).1 (sampleClosed 1) (by simp) (by decide)).2.2.2.2.2

/-- C3 counterexample: sweeping a stale open session whose notes are NULL
writes the bare text "Auto-closed at 04:00", not the claimed
"(Auto-closed at 04:00)". -/
theorem autoClose_empty_notes_counterexample :
    openYesterday.notes = none ∧
    autoCloseSweep [] [openYesterday] 600 =
      [{ openYesterday with checkOut := some (-180),
                            notes := some "Auto-closed at 04:00" }] ∧
    "Auto-closed at 04:00" ≠ "(Auto-closed at 04:00)" := ⟨rfl, rfl, by decide⟩

/-- C3 amended: when today holds no session, the previous day's list has an
open session and the Jakarta hour is at least 4, the sweep closes the first
open session at today's 04:00 Jakarta instant and rewrites its notes —
appending " (Auto-closed at 04:00)" when they were non-empty, otherwise
setting them to the bare "Auto-closed at 04:00"; every other session is
left in place; and once the day's unique open session is closed, a second
sweep changes nothing. -/
theorem autoCloseSweep_spec (todaySessions yesterdaySessions : List Session)
    (now now2 : Int) (openSession : Session)
    (hempty : todaySessions = [])
    (hopen : activeSession yesterdaySessions = some openSession)
    (hhour : 4 ≤ jakartaHour now)
    (huniq : ∀ a ∈ yesterdaySessions, a.checkOut = none → a = openSession) :
    (∃ s' ∈ autoCloseSweep todaySessions yesterdaySessions now,
      s'.id = openSession.id ∧ s'.checkOut = some (jakartaFourAM now) ∧
      (notesTruthy openSession.notes = false →
        s'.notes = some "Auto-closed at 04:00") ∧
      (∀ t, openSession.notes = some t → t ≠ "" →
        s'.notes = some (t ++ " (Auto-closed at 04:00)"))) ∧
    (∀ s ∈ yesterdaySessions, s.id ≠ openSession.id →
      s ∈ autoCloseSweep todaySessions yesterdaySessions now) ∧
    autoCloseSweep todaySessions
        (autoCloseSweep todaySessions yesterdaySessions now) now2 =
      autoCloseSweep todaySessions yesterdaySessions now := by
  subst hempty
  have hsweep : autoCloseSweep [] yesterdaySessions now =
      updateAttendance yesterdaySessions openSession.id (fun s =>
        { s with checkOut := some (jakartaFourAM now),
                 notes := some (autoCloseNotes openSession.notes) }) := by
    simp [autoCloseSweep, hopen, hhour]
  have hclosed : ∀ s ∈ updateAttendance yesterdaySessions openSession.id
      (fun s => { s with checkOut := some (jakartaFourAM now),
                         notes := some (autoCloseNotes openSession.notes) }),
      s.checkOut ≠ none := by
    intro s hsmem
    rw [updateAttendance] at hsmem
    obtain ⟨a, ha, rfl⟩ := List.mem_map.mp hsmem
    by_cases hid : a.id = openSession.id
    · simp [hid]
    · rw [if_neg hid]
      intro hnone
      exact hid (congrArg Session.id (huniq a ha hnone))
  refine ⟨?_, ?_, ?_⟩
  · rw [hsweep]
    obtain ⟨hmem, _⟩ := activeSession_mem hopen
    refine ⟨_, @patch_mem_updateAttendance yesterdaySessions _ openSession hmem,
      rfl, rfl, ?_, ?_⟩
    · intro hfalse
      simp [autoCloseNotes, hfalse]
    · intro t ht htne
      simp [autoCloseNotes, notesTruthy, ht, htne]
  · intro s hs hne
    rw [hsweep]
    exact mem_updateAttendance_of_ne hs hne
  · rw [hsweep]
    simp [autoCloseSweep, activeSession_eq_none hclosed]

/-- Witness for C3 amended: the concrete stale session of the spec
scenario, swept at Jakarta 17:00 and swept again later. -/
theorem autoCloseSweep_spec_witness :
    autoCloseSweep [] (autoCloseSweep [] [openYesterday] 600) 601 =
      autoCloseSweep [] [openYesterday] 600 :=
  (autoCloseSweep_spec [] [openYesterday] 600 601 openYesterday rfl rfl
    (by decide) (by decide)).2.2

/-- C7 counterexample: the notes of a resumed session read "Sesi ke-2"
(Indonesian), not the literal "session 2". -/
theorem resume_notes_counterexample :
    resume [sampleClosed 1] 7 2 600 = .ok [sampleClosed 1, resumeSecond] ∧
    resumeSecond.notes = some "Sesi ke-2" ∧
    some "Sesi ke-2" ≠ some "session 2" := ⟨rfl, rfl, by decide⟩

/-- C7 amended: resume fails with NoAttendanceToday on an empty day and
with SessionConflict when an open session exists; on success it appends one
session with sessionNumber = count + 1, checkIn = now, shift "Management",
status "late" exactly when the Jakarta minutes-of-day exceed 420
(independent of shift), and notes "Sesi ke-N" (Indonesian for session N)
where N is the new session number. -/
theorem resume_spec (sessions : List Session) (userId newId : Nat) (now : Int) :
    (sessions = [] →
      resume sessions userId newId now = .error .NoAttendanceToday) ∧
    ((∃ s ∈ sessions, s.checkOut = none) → sessions ≠ [] →
      resume sessions userId newId now = .error .SessionConflict) ∧
    (∀ out, resume sessions userId newId now = .ok out →
      ∃ s, out = sessions ++ [s] ∧ s.sessionNumber = sessions.length + 1 ∧
        s.checkIn = some now ∧ s.shift = some "Management" ∧
        (s.status = "late" ↔ jakartaMinutesOfDay now > 420) ∧
        s.notes = some ("Sesi ke-" ++ toString (sessions.length + 1))) := by
  refine ⟨fun hnil => ?_, fun hopen hnonnil => ?_, fun out hok => ?_⟩
  · subst hnil; rfl
  · obtain ⟨s, hs, hco⟩ := hopen
    have hsome := activeSession_isSome hs hco
    simp only [resume]
    rw [if_neg (by simpa [List.length_eq_zero] using hnonnil)]
    split
    · rfl
    · next heq => rw [heq] at hsome; simp at hsome
  · simp only [resume] at hok
    split at hok
    · exact absurd hok (by simp)
    · split at hok
      · exact absurd hok (by simp)
      · rw [Except.ok.injEq] at hok
        subst hok
        refine ⟨_, rfl, rfl, rfl, rfl, ?_, rfl⟩
        by_cases ht : jakartaMinutesOfDay now > 420
        · simp [ht]
        · rw [if_neg ht]
          simp [ht]

/-- Witness for C7 amended: a concrete resume at Jakarta 17:00 on a day
with one closed session. -/
theorem resume_spec_witness :
    ∃ s, [sampleClosed 1, resumeSecond] = [sampleClosed 1] ++ [s] ∧
      s.sessionNumber = [sampleClosed 1].length + 1 ∧ s.checkIn = some 600 ∧
      s.shift = some "Management" ∧
      (s.status = "late" ↔ jakartaMinutesOfDay 600 > 420) ∧
      s.notes = some ("Sesi ke-" ++ toString ([sampleClosed 1].length + 1)) :=
  (resume_spec [sampleClosed 1] 7 2 600).2.2 [sampleClosed 1, resumeSecond] rfl

theorem sessionWorkMins_closed_form (r : Session) :
    sessionWorkMins r =
      match r.checkIn, r.checkOut, r.permitExitAt, r.permitResumeAt with
      | some a, some b, some p, some q => max 0 ((b - a) - (q - p))
      | some a, some b, _, _ => b - a
      | _, _, some p, some q => max 0 (0 - (q - p))
      | _, _, _, _ => 0 := by
  rcases hci : r.checkIn with _ | a <;> rcases hco : r.checkOut with _ | b <;>
    rcases hpe : r.permitExitAt with _ | p <;>
      rcases hpr : r.permitResumeAt with _ | q <;>
        simp [sessionWorkMins, calculateDuration, hci, hco, hpe, hpr]

theorem sessionBreakMins_closed_form (r : Session) :
    sessionBreakMins r =
      match r.breakStart, r.breakEnd with
      | some a, some b => b - a
      | _, _ => 0 := by
  rcases hbs : r.breakStart with _ | a <;> rcases hbe : r.breakEnd with _ | b <;>
    simp [sessionBreakMins, calculateDuration, hbs, hbe]

/-- C8: the aggregator's work total sums, per session, check-out minus
check-in minutes (0 when either is absent) with the permit interval
subtracted under a floor at 0 when both permit timestamps are set; the
break total sums break-end minus break-start analogously; net work is the
difference floored at 0; the 09:00 to 17:00 scenario with a 12:00 to 13:00
break yields 480/60/420; the function is total and never fails. -/
theorem calculateDailyTotal_spec (records : List Session) :
    (calculateDailyTotal records).totalWorkMins =
      (records.map (fun r =>
        match r.checkIn, r.checkOut, r.permitExitAt, r.permitResumeAt with
        | some a, some b, some p, some q => max 0 ((b - a) - (q - p))
        | some a, some b, _, _ => b - a
        | _, _, some p, some q => max 0 (0 - (q - p))
        | _, _, _, _ => 0)).sum ∧
    (calculateDailyTotal records).totalBreakMins =
      (records.map (fun r =>
        match r.breakStart, r.breakEnd with
        | some a, some b => b - a
        | _, _ => 0)).sum ∧
    (calculateDailyTotal records).netWorkMins =
      max 0 ((calculateDailyTotal records).totalWorkMins -
        (calculateDailyTotal records).totalBreakMins) ∧
    calculateDailyTotal [scenarioSession] =
      { totalWorkMins := 480, totalBreakMins := 60, netWorkMins := 420 } := by
  refine ⟨?_, ?_, rfl, by decide⟩
  · simp only [calculateDailyTotal]
    induction records with
    | nil => rfl
    | cons r rest ih => simp [sessionWorkMins_closed_form, ih]
  · simp only [calculateDailyTotal]
    induction records with
    | nil => rfl
    | cons r rest ih => simp [sessionBreakMins_closed_form, ih]

/-- C9: the aggregator is order-independent — permuting the session list
leaves all three totals unchanged — and deterministic on equal input. -/
theorem calculateDailyTotal_perm (l1 l2 : List Session) (h : l1.Perm l2) :
    calculateDailyTotal l1 = calculateDailyTotal l2 ∧
    calculateDailyTotal l1 = calculateDailyTotal l1 := by
  have hw := (h.map sessionWorkMins).sum_eq
  have hb := (h.map sessionBreakMins).sum_eq
  exact ⟨by simp [calculateDailyTotal, hw, hb], rfl⟩

/-- Witness for C9: swapping two concrete sessions. -/
theorem calculateDailyTotal_perm_witness :
    calculateDailyTotal [sampleClosed 1, sampleOpen] =
      calculateDailyTotal [sampleOpen, sampleClosed 1] ∧
    calculateDailyTotal [sampleClosed 1, sampleOpen] =
      calculateDailyTotal [sampleClosed 1, sampleOpen] :=
  calculateDailyTotal_perm _ _ (List.Perm.swap sampleOpen (sampleClosed 1) [])

/-- C10: the break handlers require only an open session for the day:
break-start overwrites any earlier breakStart with now (last write wins),
and break-end succeeds even when breakStart is NULL, stamping breakEnd
while breakStart stays NULL so the aggregator counts 0 break minutes; with
no open session both fail with NoActiveSession. -/
theorem break_handlers_spec (sessions : List Session) (now : Int)
    (photo loc : Option String) :
    (activeSession sessions = none →
      breakStart sessions now photo loc = .error .NoActiveSession ∧
      breakEnd sessions now photo loc = .error .NoActiveSession) ∧
    (∀ ex, activeSession sessions = some ex →
      (∃ out, breakStart sessions now photo loc = .ok out ∧
        ∃ s' ∈ out, s'.id = ex.id ∧ s'.breakStart = some now ∧
          s'.breakEnd = ex.breakEnd ∧ s'.checkOut = ex.checkOut) ∧
      (∃ out, breakEnd sessions now photo loc = .ok out ∧
        ∃ s' ∈ out, s'.id = ex.id ∧ s'.breakEnd = some now ∧
          s'.breakStart = ex.breakStart ∧ s'.checkOut = ex.checkOut ∧
          (ex.breakStart = none → sessionBreakMins s' = 0))) := by
  refine ⟨fun hnone => ⟨?_, ?_⟩, fun ex hex => ⟨?_, ?_⟩⟩
  · simp [breakStart, hnone]
  · simp [breakEnd, hnone]
  · obtain ⟨hmem, _⟩ := activeSession_mem hex
    have hstep : breakStart sessions now photo loc =
        .ok (updateAttendance sessions ex.id (fun s =>
          { s with breakStart := some now, breakStartPhoto := photo,
                   breakStartLocation := loc })) := by
      simp [breakStart, hex]
    exact ⟨_, hstep, _, @patch_mem_updateAttendance sessions _ ex hmem,
      rfl, rfl, rfl, rfl⟩
  · obtain ⟨hmem, _⟩ := activeSession_mem hex
    have hstep : breakEnd sessions now photo loc =
        .ok (updateAttendance sessions ex.id (fun s =>
          { s with breakEnd := some now, breakEndPhoto := photo,
                   breakEndLocation := loc })) := by
      simp [breakEnd, hex]
    refine ⟨_, hstep, _, @patch_mem_updateAttendance sessions _ ex hmem,
      rfl, rfl, rfl, rfl, ?_⟩
    intro hbs
    simp [sessionBreakMins, calculateDuration, hbs]

/-- Witness for C10: a second break-start on an open session already
mid-break (breakStart = 30) succeeds and overwrites to 600. -/
theorem break_handlers_spec_witness :
    ∃ out, breakStart [sampleOpen] 600 none none = .ok out ∧
      ∃ s' ∈ out, s'.id = sampleOpen.id ∧ s'.breakStart = some 600 ∧
        s'.breakEnd = sampleOpen.breakEnd ∧ s'.checkOut = sampleOpen.checkOut :=
  ((break_handlers_spec [sampleOpen] 600 none none).2 sampleOpen rfl).1

end Absensi
